import Mathlib

/-!
# c-try-catch: a shallow embedding of `ctrycatch.h`, `ctrycatchsetjmp.h` and `test.c`

The library is a set of C macros built on GNU statement expressions.  A macro
such as `try(e)` is an expression that may execute `return` in the enclosing
function, so a statement is embedded as a function from the state it can see
to a `Flow`: the way control leaves it, together with the state left behind.

* `CTryCatch`        what both builds share (pointers, `Flow`, `Stmt`);
* `CTryCatch.Value`  the default build (`ctrycatch.h`, Results passed by value);
* `CTryCatch.Jump`   the `DISABLE_CTRYCATCH` build (`ctrycatchsetjmp.h`).
-/

namespace CTryCatch

/-! ## Pointers, ints and static data -/

/-- A C pointer (`void*`, `CTRYCATCH_CUSTOM_ERROR_TYPE` by default): an address. -/
abbrev Ptr := Nat

/-- The null pointer; `if (p)` on a pointer tests `p ≠ NULL`. -/
def NULL : Ptr := 0

/-- Reduce a mathematical integer to the 32-bit two's-complement `int` that
holds it; the identity on `[-2^31, 2^31)`. -/
def wrapInt (x : Int) : Int := (x + 2 ^ 31) % 2 ^ 32 - 2 ^ 31

/-- The values an `int` can hold. -/
def InIntRange (x : Int) : Prop := -(2 ^ 31) ≤ x ∧ x < 2 ^ 31

instance (x : Int) : Decidable (InIntRange x) := by
  unfold InIntRange; exact inferInstance

/-- `a + b` on `int`. -/
def int_add (a b : Int) : Int := wrapInt (a + b)

/-- `a * b` on `int`. -/
def int_mul (a b : Int) : Int := wrapInt (a * b)

/-- The addresses the pointers of `test.c` take, and the C strings a caller
can read through them. -/
structure Statics where
  /-- The C string stored in the live object at an address, if there is one. -/
  cstr : Ptr → Option String
  /-- The address of the literal `"Error"`. -/
  strlit_Error : Ptr
  /-- The address of the array `__error` that `convert_error("Error")`
  declares in the default build: `__typeof__("Error")` is `char[6]`, so
  `__typeof__(error) __error = error;` copies the literal into an array local
  to the statement expression, and `__result_context._error = __error` stores
  the address of that array.  The array is dead when the statement expression
  ends.  One address stands for the copy of every call. -/
  error_copy : Ptr

/-- The literal `"Error"` is an object: its address is not null and the
string stored there is `Error`. -/
def Statics.WellFormed (S : Statics) : Prop :=
  S.strlit_Error ≠ NULL ∧ S.cstr S.strlit_Error = some "Error"

/-- A concrete layout: the literal sits at address 4096; the copies sit at
address 8192, where a caller finds no live object. -/
def Statics.example : Statics where
  cstr := fun p => if p = 4096 then some "Error" else none
  strlit_Error := 4096
  error_copy := 8192

/-! ## Control flow -/

/-- How control leaves a statement or a statement expression. -/
inductive Flow (σ ρ α : Type) where
  /-- It completes and yields `a`; the next statement runs. -/
  | next (a : α) (s : σ)
  /-- It executed `return r;` in the enclosing function. -/
  | ret (r : ρ) (s : σ)
  /-- It executed `longjmp(error_jmp_buf, 1)` while the buffer held the catch
  point `target` (jump build only). -/
  | jump (target : Nat) (s : σ)
  /-- It called `abort()`. -/
  | aborted (s : σ)
  /-- The C standard gives the execution no meaning. -/
  | undefined
deriving DecidableEq, Repr

/-- A statement over the state `σ`, in a function returning `ρ`, yielding `α`. -/
def Stmt (σ ρ α : Type) : Type := σ → Flow σ ρ α

namespace Stmt

variable {σ ρ α β : Type}

/-- Sequencing: the second statement runs only when the first completes. -/
def bind (x : Stmt σ ρ α) (f : α → Stmt σ ρ β) : Stmt σ ρ β := fun s =>
  match x s with
  | .next a s1 => f a s1
  | .ret r s1 => .ret r s1
  | .jump k s1 => .jump k s1
  | .aborted s1 => .aborted s1
  | .undefined => .undefined

/-- An expression without effect. -/
def pure (a : α) : Stmt σ ρ α := fun s => .next a s

instance : Monad (Stmt σ ρ) where
  pure := Stmt.pure
  bind := Stmt.bind

/-- The statement `return r;`. -/
def ret (r : ρ) : Stmt σ ρ α := fun s => .ret r s

/-- The call `abort()`. -/
def abort : Stmt σ ρ α := fun s => .aborted s

/-- The statement `assert(c);`. -/
def assert (c : Bool) : Stmt σ ρ Unit := fun s =>
  if c then .next () s else .aborted s

/-- Read the state. -/
def get : Stmt σ ρ σ := fun s => .next s s

/-- Overwrite the state. -/
def set (s : σ) : Stmt σ ρ Unit := fun _ => .next () s

end Stmt

/-- The state a statement leaves behind, when the execution has a meaning. -/
def Flow.state? {σ ρ α : Type} : Flow σ ρ α → Option σ
  | .next _ s => some s
  | .ret _ s => some s
  | .jump _ s => some s
  | .aborted s => some s
  | .undefined => none

/-- The expression `strcmp(p, "<lit>") == 0`: `p` must point to a C string. -/
def strcmp_eq_zero {σ ρ : Type} (S : Statics) (p : Ptr) (lit : String) : Stmt σ ρ Bool := fun s =>
  match S.cstr p with
  | some str => .next (decide (str = lit)) s
  | none => .undefined

/-! ## Observing what a `try_catch` executes -/

/-- What an instrumented `try_catch` records: that its expression was
evaluated, or that a block ran, with the value of the name bound in it. -/
inductive Event (T : Type) where
  | evaluated
  | success_block (value : T)
  | failure_block (error : Ptr)
deriving DecidableEq, Repr

/-- An expression that records its evaluation and has the value `r`; the
state is the record. -/
def Event.expression {ρ T R : Type} (r : R) : Stmt (List (Event T)) ρ R :=
  fun log => .next r (log ++ [.evaluated])

/-- A success block that records its execution and the `value` bound in it. -/
def Event.success {ρ T : Type} (value : T) : Stmt (List (Event T)) ρ Unit :=
  fun log => .next () (log ++ [.success_block value])

/-- A failure block that records its execution and the `error` bound in it. -/
def Event.failure {ρ T : Type} (error : Ptr) : Stmt (List (Event T)) ρ Unit :=
  fun log => .next () (log ++ [.failure_block error])

/-! ## The default build: Results passed by value (`ctrycatch.h`) -/

namespace Value

/-- The struct `declare_result(TYPE)` declares; `declare_result_ptr` and
`declare_result_const_ptr` are the same struct at `TYPE*` and `const TYPE*`. -/
structure Result (α : Type) where
  _value : α
  _error : Ptr
deriving DecidableEq, Repr

/-- The value the initialiser `{0}` gives an object of the type. -/
class CZero (α : Type) where
  zero : α

/-- The struct `__void_result_value`: one unused `int8_t`. -/
structure void_result_value where
  _value : Int
deriving DecidableEq, Repr

/-- The struct `Point` of `test.c`. -/
structure Point where
  x : Int
  y : Int
deriving DecidableEq, Repr

instance : CZero Int := ⟨0⟩
instance : CZero ℚ := ⟨0⟩
instance : CZero Ptr := ⟨NULL⟩
instance : CZero void_result_value := ⟨⟨0⟩⟩
instance : CZero Point := ⟨⟨0, 0⟩⟩

/-- The struct `result_always_error`: an unused `int8_t` and the error. -/
abbrev result_always_error := Result Int

/-- The type `result(void)`. -/
abbrev result_void := Result void_result_value

variable {σ ρ T U : Type}

/-- The declaration `result_context(TYPE)`: `__result_context = {0}`. -/
def result_context [CZero U] : Result U := { _value := CZero.zero, _error := NULL }

/-- The macro `new_result(value)`. -/
def new_result (value : U) : Result U := { _value := value, _error := NULL }

/-- The macro `new_result_void`. -/
def new_result_void : result_void := { _value := { _value := 0 }, _error := NULL }

/-- The macro `try(expression)`; the state is `__result_context`. -/
def try_ (expression : Stmt (Result U) (Result U) (Result T)) :
    Stmt (Result U) (Result U) T := do
  let __result ← expression
  if __result._error ≠ NULL then
    let __result_context ← Stmt.get
    Stmt.set { __result_context with _error := __result._error }
    let __result_context ← Stmt.get
    Stmt.ret __result_context
  pure __result._value

/-- The macro `try_bang(expression)`; `bang` is `CTRYCATCH_BANG_OPERATOR`. -/
def try_bang (bang : Stmt σ ρ Unit) (expression : Stmt σ ρ (Result T)) : Stmt σ ρ T := do
  let __result ← expression
  if __result._error ≠ NULL then
    bang
  pure __result._value

/-- The default `CTRYCATCH_BANG_OPERATOR`: `abort()`. -/
def CTRYCATCH_BANG_OPERATOR : Stmt σ ρ Unit := Stmt.abort

/-- The macro `convert_error(error)` for an argument of the payload type,
whose copy `__error` is a pointer with the same value; the state is
`__result_context`.  For a string literal argument `__error` is an array
copy and its address is what is stored: see `Statics.error_copy`. -/
def convert_error (error : Ptr) : Stmt (Result U) ρ (Result U) := do
  let __error := error
  let __result_context ← Stmt.get
  Stmt.set { __result_context with _error := __error }
  let __result_context ← Stmt.get
  pure __result_context

/-- The macro `convert_always_error(expression)`. -/
def convert_always_error (expression : Stmt (Result U) ρ result_always_error) :
    Stmt (Result U) ρ (Result U) := do
  let alwaysError ← expression
  let __result_context ← Stmt.get
  Stmt.set { __result_context with _error := alwaysError._error }
  let __result_context ← Stmt.get
  pure __result_context

/-- The macro `always_error_to_result(expression)`. -/
def always_error_to_result (expression : Stmt (Result U) ρ result_always_error) :
    Stmt (Result U) ρ (Result U) := do
  let alwaysError ← expression
  let __result_context ← Stmt.get
  Stmt.set { __result_context with _error := alwaysError._error }
  let __result_context ← Stmt.get
  pure __result_context

/-- The macro `throw_error(error)`: `return convert_error(error);`. -/
def throw_error {α : Type} (error : Ptr) : Stmt (Result U) (Result U) α := do
  let r ← convert_error error
  Stmt.ret r

/-- The macro `throw_always_error(expression)`. -/
def throw_always_error {α : Type} (expression : Stmt (Result U) (Result U) result_always_error) :
    Stmt (Result U) (Result U) α := do
  let r ← convert_always_error expression
  Stmt.ret r

/-- The macro `try_catch(expression, success, failure)`; the blocks see the
names `value` and `error`. -/
def try_catch (expression : Stmt σ ρ (Result T)) (success : T → Stmt σ ρ Unit)
    (failure : Ptr → Stmt σ ρ Unit) : Stmt σ ρ Unit := do
  let __result ← expression
  if __result._error ≠ NULL then
    let error := __result._error
    failure error
  else
    let value := __result._value
    success value

/-- A call to a function of the default build, as an expression of the
caller: the callee runs on its own locals, and what it returns is the value
of the call.  Control that reaches the end of a function declared to return
a value leaves the call's value undefined. -/
def call {L : Type} (body : Stmt L T Unit) (locals : L) : Stmt σ ρ T := fun s =>
  match body locals with
  | .ret r _ => .next r s
  | .next _ _ => .undefined
  | .jump k _ => .jump k s
  | .aborted _ => .aborted s
  | .undefined => .undefined

/-! ### The functions of `test.c`, default build -/

/-- The body of `return_int_result`, after `result_context(int);`.  The
argument of `throw_error` is a string literal, so the payload stored is the
address of the array copy `__error`. -/
def return_int_result.body (S : Statics) (value should_fail : Int) :
    Stmt (Result Int) (Result Int) Unit := do
  if should_fail ≠ 0 then
    throw_error S.error_copy
  Stmt.ret (new_result value)

/-- The call `return_int_result(value, should_fail)`. -/
def return_int_result (S : Statics) (value should_fail : Int) : Stmt σ ρ (Result Int) :=
  call (return_int_result.body S value should_fail) result_context

/-- The body of `return_int_plus_5_result`, after `result_context(int);`. -/
def return_int_plus_5_result.body (S : Statics) (value should_fail : Int) :
    Stmt (Result Int) (Result Int) Unit := do
  let result ← try_ (return_int_result S value should_fail)
  Stmt.ret (new_result (int_add result 5))

/-- The call `return_int_plus_5_result(value, should_fail)`. -/
def return_int_plus_5_result (S : Statics) (value should_fail : Int) : Stmt σ ρ (Result Int) :=
  call (return_int_plus_5_result.body S value should_fail) result_context

/-- The body of `return_double_plus_int_plus_5_result`, after
`result_context(double);`.  A `double` is modelled by the rational it holds;
`d + int_result` converts the int exactly. -/
def return_double_plus_int_plus_5_result.body (S : Statics) (d : ℚ) (i should_fail : Int) :
    Stmt (Result ℚ) (Result ℚ) Unit := do
  let int_result ← try_ (return_int_plus_5_result S i should_fail)
  Stmt.ret (new_result (d + (int_result : ℚ)))

/-- The call `return_double_plus_int_plus_5_result(d, i, should_fail)`. -/
def return_double_plus_int_plus_5_result (S : Statics) (d : ℚ) (i should_fail : Int) :
    Stmt σ ρ (Result ℚ) :=
  call (return_double_plus_int_plus_5_result.body S d i should_fail) result_context

/-- The body of `return_int`. -/
def return_int.body (S : Statics) (i should_fail : Int) : Stmt Unit Int Unit :=
  try_catch (return_int_result S i should_fail)
    (fun value => Stmt.ret value)
    (fun error => do
      let c ← strcmp_eq_zero S error "Error"
      Stmt.assert c
      Stmt.ret (-1))

/-- The call `return_int(i, should_fail)`. -/
def return_int (S : Statics) (i should_fail : Int) : Stmt σ ρ Int :=
  call (return_int.body S i should_fail) ()

/-- The body of `return_int_catching_adding_7`. -/
def return_int_catching_adding_7.body (S : Statics) (i should_fail : Int) : Stmt Unit Int Unit :=
  try_catch (return_int_result S i should_fail)
    (fun value => Stmt.ret (int_add value 7))
    (fun error => do
      let c ← strcmp_eq_zero S error "Error"
      Stmt.assert c
      Stmt.ret (-1))

/-- The call `return_int_catching_adding_7(i, should_fail)`. -/
def return_int_catching_adding_7 (S : Statics) (i should_fail : Int) : Stmt σ ρ Int :=
  call (return_int_catching_adding_7.body S i should_fail) ()

/-- The statement of `main` that catches `return_int_result(v, s)` with the
blocks `{ myVal = value * 2; }` and `{ assert(strcmp(error, "Error") == 0);
myVal = -1; }`; the state is the local `myVal`. -/
def main_try_catch (S : Statics) (v s : Int) : Stmt Int Int Unit :=
  try_catch (return_int_result S v s)
    (fun value => Stmt.set (int_mul value 2))
    (fun error => do
      let c ← strcmp_eq_zero S error "Error"
      Stmt.assert c
      Stmt.set (-1))

/-- A call to a function declared `void`, as a statement of the caller:
control that reaches the end of the callee returns to the caller. -/
def call_void {L : Type} (body : Stmt L Unit Unit) (locals : L) : Stmt σ ρ Unit := fun s =>
  match body locals with
  | .ret _ _ => .next () s
  | .next _ _ => .next () s
  | .jump k _ => .jump k s
  | .aborted _ => .aborted s
  | .undefined => .undefined

/-- The body of `return_void_result`, after `result_context(void);`.  The
argument of `throw_error` is a string literal, so the payload stored is the
address of the array copy `__error`. -/
def return_void_result.body (S : Statics) (should_fail : Int) :
    Stmt result_void result_void Unit := do
  if should_fail ≠ 0 then
    throw_error S.error_copy
  Stmt.ret new_result_void

/-- The call `return_void_result(should_fail)`. -/
def return_void_result (S : Statics) (should_fail : Int) : Stmt σ ρ result_void :=
  call (return_void_result.body S should_fail) result_context

/-- The body of `always_throw_error`, after `result_context_always_error;`.
The argument of `throw_error` is a string literal, so the payload stored is
the address of the array copy `__error`. -/
def always_throw_error.body (S : Statics) :
    Stmt result_always_error result_always_error Unit := do
  throw_error S.error_copy

/-- The call `always_throw_error()`. -/
def always_throw_error (S : Statics) : Stmt σ ρ result_always_error :=
  call (always_throw_error.body S) result_context

/-- The body of `catch_always_throw_error`. -/
def catch_always_throw_error.body (S : Statics) : Stmt Unit Unit Unit :=
  try_catch (always_throw_error S)
    (fun _ => Stmt.assert false)
    (fun error => do
      let c ← strcmp_eq_zero S error "Error"
      Stmt.assert c)

/-- The call `catch_always_throw_error()`. -/
def catch_always_throw_error (S : Statics) : Stmt σ ρ Unit :=
  call_void (catch_always_throw_error.body S) ()

/-! ### Chains of propagating functions -/

/-- A chain of functions in which each one consumes the result of the next
with `try(...)`: the innermost function has the body `origin`, and a
`consumer` declares its result context, evaluates `try(inner(...))` and goes
on with the statements `rest`, which see the value the `try` yielded. -/
inductive Chain : Type → Type 1 where
  | origin {U : Type} [CZero U] (body : Stmt (Result U) (Result U) Unit) : Chain U
  | consumer {T U : Type} [CZero U] (inner : Chain T)
      (rest : T → Stmt (Result U) (Result U) Unit) : Chain U

/-- The result context the outermost function of the chain declares. -/
def Chain.context : {U : Type} → Chain U → Result U
  | _, @Chain.origin _ inst _ => @result_context _ inst
  | _, @Chain.consumer _ _ inst _ _ => @result_context _ inst

/-- The body of the outermost function of the chain. -/
def Chain.body : {U : Type} → Chain U → Stmt (Result U) (Result U) Unit
  | _, @Chain.origin _ _ body => body
  | _, @Chain.consumer _ _ _ inner rest => do
    let x ← try_ (call inner.body inner.context)
    rest x

/-- A call to the outermost function of the chain. -/
def Chain.fn (c : Chain U) : Stmt σ ρ (Result U) := call c.body c.context

/-- The number `N` of consumers around the innermost function. -/
def Chain.depth : {U : Type} → Chain U → Nat
  | _, @Chain.origin _ _ _ => 0
  | _, @Chain.consumer _ _ _ inner _ => inner.depth + 1

/-- The innermost function of the chain returns via `throw_error(e)`: run
from its own result context, its body leaves as `throw_error(e)` does. -/
def Chain.OriginThrows (e : Ptr) : {U : Type} → Chain U → Prop
  | _, @Chain.origin _ inst body =>
    body (@result_context _ inst) = (throw_error e : Stmt _ _ Unit) (@result_context _ inst)
  | _, @Chain.consumer _ _ _ inner _ => inner.OriginThrows e

end Value

/-! ## The `DISABLE_CTRYCATCH` build: `setjmp`/`longjmp` (`ctrycatchsetjmp.h`) -/

namespace Jump

/-- The thread-local variables of `ctrycatchsetjmp.h`.  A filled `jmp_buf` is
represented by the catch point it resumes: the number of the `setjmp` call
that filled it. -/
structure Thread where
  /-- The variable `error_jmp_buf`; `none` before the first `setjmp`. -/
  error_jmp_buf : Option Nat
  /-- The variable `error_value`. -/
  error_value : Ptr
  /-- How many times `setjmp` has been called on the thread: the number the
  next catch point gets. -/
  setjmp_calls : Nat
deriving DecidableEq, Repr

/-- What a statement of the jump build sees: the thread's variables and the
locals of its function. -/
structure Frame (L : Type) where
  thread : Thread
  locals : L
deriving DecidableEq, Repr

variable {L ρ T α : Type}

/-- The direct call `setjmp(error_jmp_buf)`, which returns 0: it fills the
buffer with a new catch point.  The catch point is given with the new state. -/
def setjmp (s : Frame L) : Nat × Frame L :=
  let k := s.thread.setjmp_calls
  (k, { s with thread := { s.thread with error_jmp_buf := some k, setjmp_calls := k + 1 } })

/-- The call `longjmp(error_jmp_buf, 1)`: control goes to the catch point in
the buffer; a buffer that no `setjmp` filled leaves the behaviour undefined. -/
def longjmp : Stmt (Frame L) ρ α := fun s =>
  match s.thread.error_jmp_buf with
  | some k => .jump k s
  | none => .undefined

/-- The function `throw_error`. -/
def throw_error (error : Ptr) : Stmt (Frame L) ρ α := do
  let s ← Stmt.get
  Stmt.set { s with thread := { s.thread with error_value := error } }
  longjmp

/-- The macro `try_catch(expression, success, failure)`.  `setjmp` returns 0
and the first branch runs, `value = expression; success;`.  A `longjmp` to
this catch point out of that branch makes `setjmp` return 1: the second
branch runs, `error = error_value; failure;`.  A jump to another catch point
passes through, and so does a jump out of the failure block, which is not
followed further. -/
def try_catch (expression : Stmt (Frame L) ρ T) (success : T → Stmt (Frame L) ρ Unit)
    (failure : Ptr → Stmt (Frame L) ρ Unit) : Stmt (Frame L) ρ Unit := fun s =>
  let (k, s0) := setjmp s
  match (do let value ← expression; success value : Stmt (Frame L) ρ Unit) s0 with
  | .jump target s1 =>
    if target = k then
      let error := s1.thread.error_value
      failure error s1
    else .jump target s1
  | out => out

/-- The macros `try`, `try_bang`, `new_result`, `convert_error`,
`convert_always_error` and `always_error_to_result` of this build: each
expands to its argument. -/
def try_ (expression : α) : α := expression
def try_bang (expression : α) : α := expression
def new_result (value : α) : α := value
def convert_error (error : α) : α := error
def convert_always_error (error : α) : α := error
def always_error_to_result (error : α) : α := error

/-- A call to a function of the jump build, as an expression of the caller:
the callee runs on its own locals and on the caller's thread.  A `longjmp`
in the callee leaves the call without a value. -/
def call {L' : Type} (body : Stmt (Frame L') T Unit) (locals : L') : Stmt (Frame L) ρ T := fun s =>
  match body { thread := s.thread, locals := locals } with
  | .ret r s1 => .next r { s with thread := s1.thread }
  | .next _ _ => .undefined
  | .jump k s1 => .jump k { s with thread := s1.thread }
  | .aborted s1 => .aborted { s with thread := s1.thread }
  | .undefined => .undefined

/-- A block statement that records the event `ev` in the locals. -/
def record (ev : Event T) : Stmt (Frame (List (Event T))) ρ Unit :=
  fun s => .next () { s with locals := s.locals ++ [ev] }

/-- The statement never calls `setjmp`: however it leaves, `error_jmp_buf`
holds what it held before. -/
def LeavesJmpBuf (x : Stmt (Frame L) ρ α) : Prop :=
  ∀ s s1 : Frame L, (x s).state? = some s1 → s1.thread.error_jmp_buf = s.thread.error_jmp_buf

/-! ### The functions of `test.c`, jump build -/

/-- The body of `return_int_result`; `result_context(int)` expands to
nothing.  Here `throw_error` is a function taking `void*`, so the literal
decays to its address. -/
def return_int_result.body (S : Statics) (value should_fail : Int) :
    Stmt (Frame Unit) Int Unit := do
  if should_fail ≠ 0 then
    throw_error S.strlit_Error
  Stmt.ret (new_result value)

/-- The call `return_int_result(value, should_fail)`. -/
def return_int_result (S : Statics) (value should_fail : Int) : Stmt (Frame L) ρ Int :=
  call (return_int_result.body S value should_fail) ()

/-- The body of `return_int`. -/
def return_int.body (S : Statics) (i should_fail : Int) : Stmt (Frame Unit) Int Unit :=
  try_catch (return_int_result S i should_fail)
    (fun value => Stmt.ret value)
    (fun error => do
      let c ← strcmp_eq_zero S error "Error"
      Stmt.assert c
      Stmt.ret (-1))

/-- The call `return_int(i, should_fail)`. -/
def return_int (S : Statics) (i should_fail : Int) : Stmt (Frame L) ρ Int :=
  call (return_int.body S i should_fail) ()

/-- The body of `return_int_catching_adding_7`. -/
def return_int_catching_adding_7.body (S : Statics) (i should_fail : Int) :
    Stmt (Frame Unit) Int Unit :=
  try_catch (return_int_result S i should_fail)
    (fun value => Stmt.ret (int_add value 7))
    (fun error => do
      let c ← strcmp_eq_zero S error "Error"
      Stmt.assert c
      Stmt.ret (-1))

/-- The call `return_int_catching_adding_7(i, should_fail)`. -/
def return_int_catching_adding_7 (S : Statics) (i should_fail : Int) : Stmt (Frame L) ρ Int :=
  call (return_int_catching_adding_7.body S i should_fail) ()

/-- The body of `return_int_plus_5_result`; `result_context(int)` expands to
nothing. -/
def return_int_plus_5_result.body (S : Statics) (value should_fail : Int) :
    Stmt (Frame Unit) Int Unit := do
  let result ← try_ (return_int_result S value should_fail)
  Stmt.ret (new_result (int_add result 5))

/-- The call `return_int_plus_5_result(value, should_fail)`. -/
def return_int_plus_5_result (S : Statics) (value should_fail : Int) : Stmt (Frame L) ρ Int :=
  call (return_int_plus_5_result.body S value should_fail) ()

/-- The body of `return_double_plus_int_plus_5_result`; a `double` is
modelled by the rational it holds. -/
def return_double_plus_int_plus_5_result.body (S : Statics) (d : ℚ) (i should_fail : Int) :
    Stmt (Frame Unit) ℚ Unit := do
  let int_result ← try_ (return_int_plus_5_result S i should_fail)
  Stmt.ret (new_result (d + (int_result : ℚ)))

/-- The call `return_double_plus_int_plus_5_result(d, i, should_fail)`. -/
def return_double_plus_int_plus_5_result (S : Statics) (d : ℚ) (i should_fail : Int) :
    Stmt (Frame L) ρ ℚ :=
  call (return_double_plus_int_plus_5_result.body S d i should_fail) ()

/-- The statement of `main` that catches `return_int_result(v, s)` with the
blocks `{ myVal = value * 2; }` and `{ assert(strcmp(error, "Error") == 0);
myVal = -1; }`; the locals are `myVal`. -/
def main_try_catch (S : Statics) (v s : Int) : Stmt (Frame Int) Int Unit :=
  try_catch (return_int_result S v s)
    (fun value => do
      let f ← Stmt.get
      Stmt.set { f with locals := int_mul value 2 })
    (fun error => do
      let c ← strcmp_eq_zero S error "Error"
      Stmt.assert c
      let f ← Stmt.get
      Stmt.set { f with locals := -1 })

/-- The thread `return_int` and `return_int_catching_adding_7` of the jump
build leave behind: the catch point is set, and on failure the payload is
stored. -/
def thread_after_catch (S : Statics) (should_fail : Int) (t : Thread) : Thread :=
  { error_jmp_buf := some t.setjmp_calls,
    error_value := if should_fail ≠ 0 then S.strlit_Error else t.error_value,
    setjmp_calls := t.setjmp_calls + 1 }

end Jump

end CTryCatch

/-! # Properties -/

namespace CTryCatch

/-! ## Evaluation lemmas -/

namespace Stmt

variable {σ ρ α β : Type}

@[simp] theorem bind_apply (x : Stmt σ ρ α) (f : α → Stmt σ ρ β) (s : σ) :
    (x >>= f) s = match x s with
      | .next a s1 => f a s1
      | .ret r s1 => .ret r s1
      | .jump k s1 => .jump k s1
      | .aborted s1 => .aborted s1
      | .undefined => .undefined := rfl

@[simp] theorem pure_apply (a : α) (s : σ) : (Pure.pure a : Stmt σ ρ α) s = .next a s := rfl

@[simp] theorem ret_apply (r : ρ) (s : σ) : (Stmt.ret r : Stmt σ ρ α) s = .ret r s := rfl

@[simp] theorem abort_apply (s : σ) : (Stmt.abort : Stmt σ ρ α) s = .aborted s := rfl

@[simp] theorem get_apply (s : σ) : (Stmt.get : Stmt σ ρ σ) s = .next s s := rfl

@[simp] theorem set_apply (s t : σ) : (Stmt.set t : Stmt σ ρ Unit) s = .next () t := rfl

@[simp] theorem assert_true (s : σ) : (Stmt.assert true : Stmt σ ρ Unit) s = .next () s := rfl

@[simp] theorem assert_false (s : σ) : (Stmt.assert false : Stmt σ ρ Unit) s = .aborted s := rfl

end Stmt

theorem wrapInt_of_inRange {x : Int} (h : InIntRange x) : wrapInt x = x := by
  unfold InIntRange at h
  unfold wrapInt
  omega

namespace Value

variable {σ ρ T U : Type}

/-- What `try(expression)` does, by the way `expression` leaves. -/
theorem try_apply (expression : Stmt (Result U) (Result U) (Result T)) (ctx : Result U) :
    try_ expression ctx = match expression ctx with
      | .next r c =>
        if r._error ≠ NULL then
          .ret { c with _error := r._error } { c with _error := r._error }
        else .next r._value c
      | .ret r s1 => .ret r s1
      | .jump k s1 => .jump k s1
      | .aborted s1 => .aborted s1
      | .undefined => .undefined := by
  unfold try_
  simp only [Stmt.bind_apply]
  cases h : expression ctx <;> simp
  split <;> simp

/-- What `throw_error(error)` does. -/
theorem throw_error_apply {α : Type} (error : Ptr) (ctx : Result U) :
    (throw_error error : Stmt (Result U) (Result U) α) ctx
      = .ret { ctx with _error := error } { ctx with _error := error } := by
  simp [throw_error, convert_error]

/-- What `try_catch(expression, success, failure)` does, by the way
`expression` leaves. -/
theorem try_catch_apply (expression : Stmt σ ρ (Result T)) (success : T → Stmt σ ρ Unit)
    (failure : Ptr → Stmt σ ρ Unit) (s : σ) :
    try_catch expression success failure s = match expression s with
      | .next r s1 => if r._error ≠ NULL then failure r._error s1 else success r._value s1
      | .ret r s1 => .ret r s1
      | .jump k s1 => .jump k s1
      | .aborted s1 => .aborted s1
      | .undefined => .undefined := by
  unfold try_catch
  simp only [Stmt.bind_apply]
  cases h : expression s <;> simp
  split <;> simp_all

/-- The call `return_int_result(value, should_fail)` evaluated. -/
theorem return_int_result_apply (S : Statics) (value should_fail : Int) (s : σ) :
    (return_int_result S value should_fail : Stmt σ ρ (Result Int)) s
      = if should_fail ≠ 0 then .next { _value := 0, _error := S.error_copy } s
        else .next { _value := value, _error := NULL } s := by
  unfold return_int_result call return_int_result.body
  by_cases h : should_fail = 0
  · simp [h, new_result]
  · simp [h, throw_error_apply, result_context, CZero.zero]

end Value

end CTryCatch

namespace CTryCatch

namespace Value

variable {σ ρ T U : Type}

/-- The body of a chain whose innermost function throws a non-null `e`
returns the declared context with `_error` set to `e`. -/
theorem Chain.body_of_originThrows (e : Ptr) (he : e ≠ NULL) :
    ∀ {U : Type} (c : Chain U), c.OriginThrows e →
      c.body c.context = .ret { c.context with _error := e } { c.context with _error := e } := by
  intro U c
  induction c with
  | origin body =>
    intro h
    simp only [Chain.OriginThrows] at h
    simp only [Chain.body, Chain.context, h, throw_error_apply]
  | consumer inner rest ih =>
    intro h
    have hin := ih h
    simp only [Chain.body, Stmt.bind_apply, try_apply, call, hin]
    simp [he, Chain.context]

/-- C1 (as amended): in the default build, for every non-null payload `e` and
every chain of `N ≥ 0` functions that each consume the next one with
`try(...)`, when the innermost function returns via `throw_error(e)` the call
to the outermost function yields its zero-initialised result context with
`_error = e`; this holds whatever statements `rest` follow each `try(...)`,
also `abort()`, so none of them is executed: replacing the statements that
follow the outermost `try(...)` by any others leaves the call unchanged. -/
theorem C1_error_identity_through_chain (e : Ptr) (he : e ≠ NULL) (c : Chain U)
    (hc : c.OriginThrows e) (s : σ) :
    (c.fn : Stmt σ ρ (Result U)) s = .next { c.context with _error := e } s
      ∧ ({ c.context with _error := e } : Result U)._error = e
      ∧ ∀ {V : Type} [CZero V] (rest rest2 : U → Stmt (Result V) (Result V) Unit),
          (Chain.consumer c rest).body = (Chain.consumer c rest2).body := by
  refine ⟨?_, rfl, ?_⟩
  · simp [Chain.fn, call, Chain.body_of_originThrows e he c hc]
  · intro V _ rest rest2
    funext ctx
    simp [Chain.body, try_apply, call, Chain.body_of_originThrows e he c hc, he]

/-- A chain with `N = 2` whose innermost function, with home type `int`,
returns via `throw_error(p)` for the pointer `p = 4096`: the first consumer,
with home type `int`, would go on to `return new_result(result + 5);` and the
second, with home type `double`, to `return new_result(10 + int_result);`; the
outermost call yields `{0, 4096}`. -/
theorem C1_error_identity_through_chain_witness :
    (Chain.consumer (U := ℚ)
        (Chain.consumer (U := Int) (Chain.origin (U := Int) (throw_error 4096))
          (fun result => Stmt.ret (new_result (int_add result 5))))
        (fun int_result => Stmt.ret (new_result (10 + (int_result : ℚ))))).depth = 2
      ∧ ((Chain.consumer (U := ℚ)
            (Chain.consumer (U := Int) (Chain.origin (U := Int) (throw_error 4096))
              (fun result => Stmt.ret (new_result (int_add result 5))))
            (fun int_result => Stmt.ret (new_result (10 + (int_result : ℚ))))).fn :
            Stmt Unit Unit (Result ℚ)) ()
          = .next { _value := 0, _error := 4096 } () :=
  ⟨rfl, (C1_error_identity_through_chain (σ := Unit) (ρ := Unit) 4096 (by decide)
    (Chain.consumer (U := ℚ)
      (Chain.consumer (U := Int) (Chain.origin (U := Int) (throw_error 4096))
        (fun result => Stmt.ret (new_result (int_add result 5))))
      (fun int_result => Stmt.ret (new_result (10 + (int_result : ℚ)))))
    (by simp [Chain.OriginThrows]) ()).1⟩

/-- C1 as stated fails at the null payload with `N = 1`: the innermost
function returns via `throw_error(NULL)`, the `try(...)` of its consumer does
not short-circuit, and the statement that follows it, here
`throw_error(7)`, is executed: the outermost Result has `_error = 7`, not
`NULL`. -/
theorem C1_null_payload_counterexample :
    (Chain.consumer (U := Int) (Chain.origin (U := Int) (throw_error NULL))
        (fun _ => throw_error 7)).OriginThrows NULL
      ∧ ((Chain.consumer (U := Int) (Chain.origin (U := Int) (throw_error NULL))
            (fun _ => throw_error 7)).fn : Stmt Unit Unit (Result Int)) ()
          = .next { _value := 0, _error := 7 } ()
      ∧ ((Chain.consumer (U := Int) (Chain.origin (U := Int) (throw_error NULL))
            (fun _ => throw_error 7)).fn : Stmt Unit Unit (Result Int)) ()
          ≠ .next { _value := 0, _error := NULL } () := by
  refine ⟨rfl, ?_, ?_⟩
  · simp [Chain.fn, call, Chain.body, Chain.context, try_apply, throw_error_apply, result_context,
      CZero.zero]
  · simp [Chain.fn, call, Chain.body, Chain.context, try_apply, throw_error_apply, result_context,
      CZero.zero, NULL]

end Value

end CTryCatch

namespace CTryCatch

namespace Value

variable {σ ρ T U : Type}

/-- C2: for every value `v`, in the default build `new_result(v)` has
`_value = v` and `_error = NULL`, and `try(new_result(v))` yields `v` and lets
the enclosing function go on, its result context untouched; in the jump
build `new_result` and `try` are the identity, so `try(new_result(v))` is `v`. -/
theorem C2_try_new_result_round_trip (v : T) (ctx : Result U) :
    try_ (pure (new_result v)) ctx = .next v ctx
      ∧ (new_result v)._value = v
      ∧ (new_result v)._error = NULL
      ∧ Jump.new_result v = v
      ∧ Jump.try_ v = v
      ∧ Jump.try_ (Jump.new_result v) = v := by
  refine ⟨?_, rfl, rfl, rfl, rfl, rfl⟩
  simp [try_apply, new_result]

/-- C3: in the default build, when the expression of a `try_catch` evaluates
to the Result `r`, leaving the state `s1`, the `try_catch` is the failure
block run from `s1` with `error = r._error` when `r` carries an error, and
otherwise the success block run from `s1` with `value = r._value`.  With an
expression and blocks that record what runs, the record gains exactly one
evaluation followed by exactly one block. -/
theorem C3_try_catch_dispatch (expression : Stmt σ ρ (Result T)) (success : T → Stmt σ ρ Unit)
    (failure : Ptr → Stmt σ ρ Unit) (s s1 : σ) (r : Result T)
    (h : expression s = .next r s1) :
    try_catch expression success failure s
        = (if r._error ≠ NULL then failure r._error s1 else success r._value s1)
      ∧ ∀ log : List (Event T),
          (try_catch (Event.expression r) Event.success Event.failure : Stmt _ ρ Unit) log
            = .next () (log ++ [Event.evaluated,
                if r._error ≠ NULL then Event.failure_block r._error
                else Event.success_block r._value]) := by
  constructor
  · simp [try_catch_apply, h]
  · intro log
    simp only [try_catch_apply, Event.expression]
    by_cases hr : r._error = NULL <;> simp [hr, Event.success, Event.failure]

/-- The recording `try_catch` on the Results `{5, NULL}` and `{0, 4096}`. -/
theorem C3_try_catch_dispatch_witness :
    (try_catch (Event.expression (T := Int) (⟨5, NULL⟩ : Result Int)) Event.success Event.failure :
        Stmt _ Unit Unit) []
        = .next () [Event.evaluated, Event.success_block 5]
      ∧ (try_catch (Event.expression (T := Int) (⟨0, 4096⟩ : Result Int)) Event.success
          Event.failure : Stmt _ Unit Unit) []
        = .next () [Event.evaluated, Event.failure_block 4096] :=
  ⟨(C3_try_catch_dispatch (Event.expression (T := Int) (⟨5, NULL⟩ : Result Int)) Event.success
      Event.failure [] [Event.evaluated] ⟨5, NULL⟩ rfl).1,
   (C3_try_catch_dispatch (Event.expression (T := Int) (⟨0, 4096⟩ : Result Int)) Event.success
      Event.failure [] [Event.evaluated] ⟨0, 4096⟩ rfl).1⟩

/-- C4 (as amended): in the default build, for every non-null payload `e`,
when the expression of a `try_catch` is a call to a function that returns via
`throw_error(e)`, the `try_catch` is its failure block run with `error = e`;
the success block is not run, whatever it is. -/
theorem C4_throw_is_caught (e : Ptr) (he : e ≠ NULL) [CZero U]
    (body : Stmt (Result U) (Result U) Unit)
    (hbody : body result_context = (throw_error e : Stmt _ _ Unit) result_context)
    (success : U → Stmt σ ρ Unit) (failure : Ptr → Stmt σ ρ Unit) (s : σ) :
    try_catch (call body result_context) success failure s = failure e s := by
  simp [try_catch_apply, call, hbody, throw_error_apply, he]

/-- A function with home type `int` that returns via `throw_error(p)` for
the pointer `p = 4096`, under a recording `try_catch`: only the failure block
runs, with `error = 4096`. -/
theorem C4_throw_is_caught_witness :
    (try_catch (call (throw_error (U := Int) (α := Unit) 4096) result_context)
        Event.success Event.failure : Stmt (List (Event Int)) Unit Unit) []
      = .next () [Event.failure_block 4096] :=
  C4_throw_is_caught (U := Int) 4096 (by decide) (throw_error 4096) rfl
    Event.success Event.failure []

/-- C4 as stated fails at the null payload: a function with home type `int`
that returns via `throw_error(NULL)` makes `try_catch` run the success block,
with `value = 0`, and not the failure block. -/
theorem C4_null_payload_counterexample :
    (try_catch (call (throw_error (U := Int) (α := Unit) NULL) result_context)
        Event.success Event.failure : Stmt (List (Event Int)) Unit Unit) []
      = .next () [Event.success_block 0] := by
  simp [try_catch_apply, call, throw_error_apply, result_context, CZero.zero, Event.success]

end Value

end CTryCatch

namespace CTryCatch

namespace Jump

variable {L ρ T α : Type}

/-- What `throw_error(error)` does: it stores `error` and jumps. -/
theorem jump_throw_error_apply (error : Ptr) (s : Frame L) :
    (throw_error error : Stmt (Frame L) ρ α) s
      = match s.thread.error_jmp_buf with
        | some k => .jump k { s with thread := { s.thread with error_value := error } }
        | none => .undefined := by
  simp [throw_error, longjmp]

/-- What `try_catch` does when its expression returns normally. -/
theorem try_catch_of_next (expression : Stmt (Frame L) ρ T) (success : T → Stmt (Frame L) ρ Unit)
    (failure : Ptr → Stmt (Frame L) ρ Unit) (s s1 : Frame L) (v : T)
    (h : expression (setjmp s).2 = .next v s1) :
    try_catch expression success failure s
      = match success v s1 with
        | .jump target s2 =>
          if target = (setjmp s).1 then failure s2.thread.error_value s2 else .jump target s2
        | out => out := by
  simp [try_catch, h]

/-- What `try_catch` does when its expression leaves by a jump. -/
theorem try_catch_of_jump (expression : Stmt (Frame L) ρ T) (success : T → Stmt (Frame L) ρ Unit)
    (failure : Ptr → Stmt (Frame L) ρ Unit) (s s1 : Frame L) (target : Nat)
    (h : expression (setjmp s).2 = .jump target s1) :
    try_catch expression success failure s
      = if target = (setjmp s).1 then failure s1.thread.error_value s1 else .jump target s1 := by
  simp [try_catch, h]

/-- A `try_catch` whose expression and blocks never call `setjmp` leaves its
own catch point in `error_jmp_buf` when it completes. -/
theorem try_catch_leaves_own_catch_point (expression : Stmt (Frame L) ρ T)
    (success : T → Stmt (Frame L) ρ Unit) (failure : Ptr → Stmt (Frame L) ρ Unit)
    (he : LeavesJmpBuf expression) (hs : ∀ v, LeavesJmpBuf (success v))
    (hf : ∀ x, LeavesJmpBuf (failure x)) (s s2 : Frame L)
    (h : try_catch expression success failure s = .next () s2) :
    s2.thread.error_jmp_buf = some s.thread.setjmp_calls := by
  have h0 : (setjmp s).2.thread.error_jmp_buf = some s.thread.setjmp_calls := rfl
  cases hx : expression (setjmp s).2 with
  | next v s1 =>
    have e1 := he _ s1 (by rw [hx]; rfl)
    rw [try_catch_of_next _ _ _ _ _ _ hx] at h
    cases hy : success v s1 with
    | next u s3 =>
      rw [hy] at h
      have e2 := hs v _ s3 (by rw [hy]; rfl)
      simp only [Flow.next.injEq] at h
      rw [← h.2, e2, e1, h0]
    | jump target s3 =>
      rw [hy] at h
      have e2 := hs v _ s3 (by rw [hy]; rfl)
      by_cases ht : target = (setjmp s).1
      · simp only [ht, if_true] at h
        have e3 := hf _ _ s2 (by rw [h]; rfl)
        rw [e3, e2, e1, h0]
      · simp [ht] at h
    | ret r s3 => rw [hy] at h; simp at h
    | aborted s3 => rw [hy] at h; simp at h
    | undefined => rw [hy] at h; simp at h
  | jump target s1 =>
    have e1 := he _ s1 (by rw [hx]; rfl)
    rw [try_catch_of_jump _ _ _ _ _ _ hx] at h
    by_cases ht : target = (setjmp s).1
    · simp only [ht, if_true] at h
      have e3 := hf _ _ s2 (by rw [h]; rfl)
      rw [e3, e1, h0]
    · simp [ht] at h
  | ret r s1 => simp [try_catch, hx] at h
  | aborted s1 => simp [try_catch, hx] at h
  | undefined => simp [try_catch, hx] at h

end Jump

end CTryCatch

namespace CTryCatch

namespace Jump

variable {L ρ T α : Type}

/-- C5 (as amended): `try_catch` fills `error_jmp_buf` on entry and nothing
restores it.  When an inner `try_catch`, whose expression and blocks enter no
further `try_catch`, is the first statement of the expression of an outer
one and completes normally in the state `s2`, then `error_jmp_buf` holds the
inner catch point and not the outer one; a `throw_error(e)` executed next,
still inside the outer expression, stores `e` in `error_value` and jumps to
the inner catch point, and the outer `try_catch` passes that jump on without
running either of its blocks. -/
theorem C5_nested_catch_point_not_restored (ie : Stmt (Frame L) ρ T)
    (isucc : T → Stmt (Frame L) ρ Unit) (ifail : Ptr → Stmt (Frame L) ρ Unit)
    (osucc : α → Stmt (Frame L) ρ Unit) (ofail : Ptr → Stmt (Frame L) ρ Unit)
    (hie : LeavesJmpBuf ie) (his : ∀ v, LeavesJmpBuf (isucc v))
    (hif : ∀ x, LeavesJmpBuf (ifail x)) (s s2 : Frame L) (e : Ptr)
    (hin : try_catch ie isucc ifail (setjmp s).2 = .next () s2) :
    s2.thread.error_jmp_buf = some (setjmp (setjmp s).2).1
      ∧ s2.thread.error_jmp_buf ≠ some (setjmp s).1
      ∧ try_catch (do try_catch ie isucc ifail; throw_error e) osucc ofail s
          = .jump (setjmp (setjmp s).2).1
              { s2 with thread := { s2.thread with error_value := e } } := by
  have hbuf := try_catch_leaves_own_catch_point ie isucc ifail hie his hif _ s2 hin
  have hk : (setjmp (setjmp s).2).1 = s.thread.setjmp_calls + 1 := rfl
  have hk0 : (setjmp s).1 = s.thread.setjmp_calls := rfl
  have hk1 : (setjmp s).2.thread.setjmp_calls = s.thread.setjmp_calls + 1 := rfl
  refine ⟨by rw [hbuf, hk, hk1], by rw [hbuf, hk0, hk1]; simp, ?_⟩
  have hx : (do try_catch ie isucc ifail; throw_error e : Stmt (Frame L) ρ α) (setjmp s).2
      = .jump (setjmp (setjmp s).2).1
          { s2 with thread := { s2.thread with error_value := e } } := by
    simp [hin, jump_throw_error_apply, hbuf, hk, hk1]
  rw [try_catch_of_jump _ _ _ _ _ _ hx]
  simp [hk, hk0]

/-- An inner `try_catch(0, {}, {})` followed by `throw_error(7)` inside an
outer `try_catch` whose blocks record: the jump goes to catch point 1, the
inner one, and the outer record stays empty. -/
theorem C5_nested_catch_point_not_restored_witness :
    (try_catch (do try_catch (pure (0 : Int)) (fun _ => pure ()) (fun _ => pure ());
                   throw_error 7)
        (fun v : Int => record (Event.success_block v)) (fun x => record (Event.failure_block x)) :
        Stmt (Frame (List (Event Int))) Unit Unit)
        { thread := { error_jmp_buf := none, error_value := NULL, setjmp_calls := 0 },
          locals := [] }
      = .jump 1 { thread := { error_jmp_buf := some 1, error_value := 7, setjmp_calls := 2 },
                  locals := [] } :=
  (C5_nested_catch_point_not_restored (pure (0 : Int)) (fun _ => pure ()) (fun _ => pure ())
    (fun v : Int => record (Event.success_block v)) (fun x => record (Event.failure_block x))
    (by intro s s1 h; simp [Flow.state?] at h; rw [← h])
    (by intro v s s1 h; simp [Flow.state?] at h; rw [← h])
    (by intro v s s1 h; simp [Flow.state?] at h; rw [← h])
    { thread := { error_jmp_buf := none, error_value := NULL, setjmp_calls := 0 }, locals := [] }
    { thread := { error_jmp_buf := some 1, error_value := NULL, setjmp_calls := 2 }, locals := [] }
    7 (by simp [try_catch, setjmp])).2.2

/-- C5 as stated fails: after the outer `try_catch` has set catch point 0 and
an inner `try_catch(0, {}, {})` has completed normally, `error_jmp_buf` holds
catch point 1, the inner one, and `throw_error(7)` jumps there. -/
theorem C5_nested_catch_point_counterexample :
    (setjmp ({ thread := { error_jmp_buf := none, error_value := NULL, setjmp_calls := 0 },
               locals := () } : Frame Unit)).1 = 0
      ∧ (try_catch (pure (0 : Int)) (fun _ => pure ()) (fun _ => pure ()) :
            Stmt (Frame Unit) Unit Unit)
          (setjmp { thread := { error_jmp_buf := none, error_value := NULL, setjmp_calls := 0 },
                    locals := () }).2
          = .next () { thread := { error_jmp_buf := some 1, error_value := NULL,
                                   setjmp_calls := 2 }, locals := () }
      ∧ (throw_error 7 : Stmt (Frame Unit) Unit Unit)
          { thread := { error_jmp_buf := some 1, error_value := NULL, setjmp_calls := 2 },
            locals := () }
          = .jump 1 { thread := { error_jmp_buf := some 1, error_value := 7, setjmp_calls := 2 },
                      locals := () } := by
  refine ⟨rfl, ?_, ?_⟩
  · simp [try_catch, setjmp]
  · simp [jump_throw_error_apply]

end Jump

end CTryCatch

namespace CTryCatch

namespace Jump

variable {L ρ T α : Type}

/-- The call `return_int_result(value, should_fail)` of the jump build,
evaluated. -/
theorem jump_return_int_result_apply (S : Statics) (value should_fail : Int) (s : Frame L) :
    (return_int_result S value should_fail : Stmt (Frame L) ρ Int) s
      = if should_fail ≠ 0 then
          match s.thread.error_jmp_buf with
          | some k => .jump k { s with thread := { s.thread with error_value := S.strlit_Error } }
          | none => .undefined
        else .next value s := by
  unfold return_int_result call return_int_result.body
  by_cases h : should_fail = 0
  · simp [h, new_result]
  · simp only [ne_eq, h, not_false_eq_true, if_true, Stmt.bind_apply, jump_throw_error_apply]
    cases hb : s.thread.error_jmp_buf <;> simp

end Jump

/-- The value `return_int(i, 0)` returns in the default build. -/
theorem Value.return_int_apply {σ ρ : Type} (S : Statics) (i : Int) (s : σ) :
    (Value.return_int S i 0 : Stmt σ ρ Int) s = .next i s := by
  simp [Value.return_int, Value.call, Value.return_int.body, Value.try_catch_apply,
    Value.return_int_result_apply, NULL]

/-- The value `return_int_catching_adding_7(i, 0)` returns in the default
build. -/
theorem Value.return_int_catching_adding_7_apply {σ ρ : Type} (S : Statics) (i : Int) (s : σ) :
    (Value.return_int_catching_adding_7 S i 0 : Stmt σ ρ Int) s = .next (int_add i 7) s := by
  simp [Value.return_int_catching_adding_7, Value.call, Value.return_int_catching_adding_7.body,
    Value.try_catch_apply, Value.return_int_result_apply, NULL]

/-- The value `return_int(i, should_fail)` returns in the jump build. -/
theorem Jump.jump_return_int_apply {L ρ : Type} (S : Statics) (hS : S.WellFormed)
    (i should_fail : Int) (s : Jump.Frame L) :
    (Jump.return_int S i should_fail : Stmt (Jump.Frame L) ρ Int) s
      = .next (if should_fail ≠ 0 then -1 else i)
          { s with thread := Jump.thread_after_catch S should_fail s.thread } := by
  obtain ⟨_, h2⟩ := hS
  unfold Jump.return_int Jump.call Jump.return_int.body Jump.thread_after_catch
  by_cases h : should_fail = 0
  · simp [Jump.try_catch, Jump.jump_return_int_result_apply, h, Jump.setjmp]
  · simp [Jump.try_catch, Jump.jump_return_int_result_apply, h, Jump.setjmp, strcmp_eq_zero, h2]

/-- The value `return_int_catching_adding_7(i, should_fail)` returns in the
jump build. -/
theorem Jump.jump_return_int_catching_adding_7_apply {L ρ : Type} (S : Statics) (hS : S.WellFormed)
    (i should_fail : Int) (s : Jump.Frame L) :
    (Jump.return_int_catching_adding_7 S i should_fail : Stmt (Jump.Frame L) ρ Int) s
      = .next (if should_fail ≠ 0 then -1 else int_add i 7)
          { s with thread := Jump.thread_after_catch S should_fail s.thread } := by
  obtain ⟨_, h2⟩ := hS
  unfold Jump.return_int_catching_adding_7 Jump.call Jump.return_int_catching_adding_7.body
    Jump.thread_after_catch
  by_cases h : should_fail = 0
  · simp [Jump.try_catch, Jump.jump_return_int_result_apply, h, Jump.setjmp]
  · simp [Jump.try_catch, Jump.jump_return_int_result_apply, h, Jump.setjmp, strcmp_eq_zero, h2]

end CTryCatch

namespace CTryCatch

/-- A layout with the literal at address 4096 is well formed. -/
theorem Statics.example_wellFormed : Statics.example.WellFormed := by
  constructor
  · decide
  · simp [Statics.example]

/-- C6 fails on the code at `should_fail = 1`: on the layout with the
literal at address 4096 and the array copy at address 8192, in the default
build the failure block of a `try_catch` around `return_int_result(10, 1)` is
bound to 8192, the address of the dead copy, while in the jump build it is
bound to 4096, the literal; the `strcmp` of `return_int(10, 1)` and of
`return_int_catching_adding_7(10, 1)` then reads a dead object in the default
build, which is undefined, where the jump build returns `-1`. -/
theorem C6_backend_equivalence_fails_on_throw :
    (Value.try_catch (Value.return_int_result Statics.example 10 1) Event.success Event.failure :
          Stmt _ Unit Unit) []
        = .next () [Event.failure_block 8192]
      ∧ (Jump.try_catch (Jump.return_int_result Statics.example 10 1)
            (fun value => Jump.record (Event.success_block value))
            (fun error => Jump.record (Event.failure_block error)) : Stmt _ Unit Unit)
            { thread := { error_jmp_buf := none, error_value := NULL, setjmp_calls := 0 },
              locals := [] }
        = .next () { thread := { error_jmp_buf := some 0, error_value := 4096, setjmp_calls := 1 },
                     locals := [Event.failure_block 4096] }
      ∧ (Value.return_int Statics.example 10 1 : Stmt Unit Unit Int) () = .undefined
      ∧ (Value.return_int_catching_adding_7 Statics.example 10 1 : Stmt Unit Unit Int) ()
        = .undefined
      ∧ (Jump.return_int Statics.example 10 1 : Stmt (Jump.Frame Unit) Unit Int)
            { thread := { error_jmp_buf := none, error_value := NULL, setjmp_calls := 0 },
              locals := () }
        = .next (-1) { thread := { error_jmp_buf := some 0, error_value := 4096,
                                   setjmp_calls := 1 }, locals := () }
      ∧ (Jump.return_int_catching_adding_7 Statics.example 10 1 :
            Stmt (Jump.Frame Unit) Unit Int)
            { thread := { error_jmp_buf := none, error_value := NULL, setjmp_calls := 0 },
              locals := () }
        = .next (-1) { thread := { error_jmp_buf := some 0, error_value := 4096,
                                   setjmp_calls := 1 }, locals := () } := by
  refine ⟨?_, ?_, ?_, ?_, ?_, ?_⟩
  · simp [Value.try_catch_apply, Value.return_int_result_apply, Statics.example, NULL,
      Event.failure]
  · simp [Jump.try_catch, Jump.jump_return_int_result_apply, Jump.setjmp, Jump.record,
      Statics.example]
  · simp [Value.return_int, Value.call, Value.return_int.body, Value.try_catch_apply,
      Value.return_int_result_apply, Statics.example, NULL, strcmp_eq_zero]
  · simp [Value.return_int_catching_adding_7, Value.call,
      Value.return_int_catching_adding_7.body, Value.try_catch_apply,
      Value.return_int_result_apply, Statics.example, NULL, strcmp_eq_zero]
  · rw [Jump.jump_return_int_apply _ Statics.example_wellFormed]
    simp [Jump.thread_after_catch, Statics.example]
  · rw [Jump.jump_return_int_catching_adding_7_apply _ Statics.example_wellFormed]
    simp [Jump.thread_after_catch, Statics.example]

end CTryCatch

namespace CTryCatch

namespace Jump

variable {L ρ T α : Type}

/-- C7 (as amended): in the jump build, for every payload `e`,
`throw_error(e)` executed while `error_jmp_buf` holds the catch point `k`
stores `e` in `error_value` and leaves by a jump to `k`, so it does not
return to its caller.  When the expression of a `try_catch` leaves by a jump
to the catch point this `try_catch` set, with `e` in `error_value`, the
`try_catch` is its failure block run with `error = e`, and the success block
is not run.  When the expression returns normally with the value `v`, the
success block is run with `value = v`; if it leaves in any way other than a
jump, that is the whole `try_catch` and the failure block is not run, but a
`throw_error` in the success block jumps to this same catch point and runs
the failure block as well. -/
theorem C7_throw_and_catch (expression : Stmt (Frame L) ρ T)
    (success : T → Stmt (Frame L) ρ Unit) (failure : Ptr → Stmt (Frame L) ρ Unit)
    (s s1 : Frame L) (e : Ptr) (v : T) :
    (∀ (t : Frame L) (k : Nat), t.thread.error_jmp_buf = some k →
        (throw_error e : Stmt (Frame L) ρ α) t
          = .jump k { t with thread := { t.thread with error_value := e } })
      ∧ (expression (setjmp s).2 = .jump (setjmp s).1 s1 → s1.thread.error_value = e →
          try_catch expression success failure s = failure e s1)
      ∧ (expression (setjmp s).2 = .next v s1 →
          ((∀ target s2, success v s1 ≠ .jump target s2) →
            try_catch expression success failure s = success v s1)
          ∧ (∀ s2 k e2, success v s1 = throw_error e2 s2 → s2.thread.error_jmp_buf = some k →
              k = (setjmp s).1 →
              try_catch expression success failure s
                = failure e2 { s2 with thread := { s2.thread with error_value := e2 } })) := by
  refine ⟨?_, ?_, ?_⟩
  · intro t k hk
    simp [jump_throw_error_apply, hk]
  · intro hx he
    rw [try_catch_of_jump _ _ _ _ _ _ hx]
    simp [he]
  · intro hx
    constructor
    · intro hs
      rw [try_catch_of_next _ _ _ _ _ _ hx]
      cases hy : success v s1 with
      | jump target s2 => exact absurd hy (hs target s2)
      | next _ _ => rfl
      | ret _ _ => rfl
      | aborted _ => rfl
      | undefined => rfl
    · intro s2 k e2 hy hk hkk
      rw [try_catch_of_next _ _ _ _ _ _ hx, hy, jump_throw_error_apply, hk]
      simp [hkk]

/-- The two `try_catch` statements of `main` in the jump build, with blocks
that record, on the layout with the literal at address 4096:
`return_int_result(5, 1)` throws and only the failure block runs;
`return_int_result(5, 0)` returns 5 and only the success block runs. -/
theorem C7_throw_and_catch_witness :
    (try_catch (return_int_result Statics.example 5 1)
          (fun value => record (Event.success_block value))
          (fun error => record (Event.failure_block error)) : Stmt _ Unit Unit)
          { thread := { error_jmp_buf := none, error_value := NULL, setjmp_calls := 0 },
            locals := [] }
        = .next () { thread := { error_jmp_buf := some 0, error_value := 4096, setjmp_calls := 1 },
                     locals := [Event.failure_block 4096] }
      ∧ (try_catch (return_int_result Statics.example 5 0)
          (fun value => record (Event.success_block value))
          (fun error => record (Event.failure_block error)) : Stmt _ Unit Unit)
          { thread := { error_jmp_buf := none, error_value := NULL, setjmp_calls := 0 },
            locals := [] }
        = .next () { thread := { error_jmp_buf := some 0, error_value := NULL, setjmp_calls := 1 },
                     locals := [Event.success_block 5] } :=
  ⟨(C7_throw_and_catch (α := Unit) (return_int_result Statics.example 5 1)
      (fun value => record (Event.success_block value))
      (fun error => record (Event.failure_block error))
      { thread := { error_jmp_buf := none, error_value := NULL, setjmp_calls := 0 }, locals := [] }
      { thread := { error_jmp_buf := some 0, error_value := 4096, setjmp_calls := 1 },
        locals := [] }
      4096 0).2.1 (by simp [jump_return_int_result_apply, setjmp, Statics.example]) rfl,
   ((C7_throw_and_catch (α := Unit) (return_int_result Statics.example 5 0)
      (fun value => record (Event.success_block value))
      (fun error => record (Event.failure_block error))
      { thread := { error_jmp_buf := none, error_value := NULL, setjmp_calls := 0 }, locals := [] }
      { thread := { error_jmp_buf := some 0, error_value := NULL, setjmp_calls := 1 },
        locals := [] }
      0 5).2.2 (by simp [jump_return_int_result_apply, setjmp])).1
        (by intro target s2 h; simp [record] at h)⟩

/-- C7 as stated fails when the success block throws: the expression returns
5 normally, the success block records and executes `throw_error(9)`, and the
failure block of the same `try_catch` runs too, with `error = 9`. -/
theorem C7_success_block_throws_counterexample :
    (try_catch (pure (5 : Int))
        (fun value => do record (Event.success_block value); throw_error 9)
        (fun error => record (Event.failure_block error)) : Stmt _ Unit Unit)
        { thread := { error_jmp_buf := none, error_value := NULL, setjmp_calls := 0 },
          locals := [] }
      = .next () { thread := { error_jmp_buf := some 0, error_value := 9, setjmp_calls := 1 },
                   locals := [Event.success_block 5, Event.failure_block 9] } := by
  simp [try_catch, setjmp, record, jump_throw_error_apply]

end Jump

end CTryCatch

namespace CTryCatch

namespace Value

variable {σ ρ T U : Type}

/-- C8: in the default build, when the expression of `try_bang` evaluates to
the Result `r`, leaving the state `s1`: if `r._error` is `NULL`, `try_bang`
yields `r._value` whatever the abort hook is, so the hook is not invoked; if
`r._error` is not `NULL`, the hook is invoked from `s1`, and with the default
hook `abort()` the `try_bang` ends in the abort and yields no value.  With the
default hook it never executes a `return` of the enclosing function. -/
theorem C8_try_bang (bang : Stmt σ ρ Unit) (expression : Stmt σ ρ (Result T)) (s s1 : σ)
    (r : Result T) (h : expression s = .next r s1) :
    (r._error = NULL → try_bang bang expression s = .next r._value s1)
      ∧ (r._error ≠ NULL →
          try_bang bang expression s = (do bang; pure r._value : Stmt σ ρ T) s1
          ∧ try_bang CTRYCATCH_BANG_OPERATOR expression s = .aborted s1)
      ∧ (∀ (x : ρ) (s2 : σ), try_bang CTRYCATCH_BANG_OPERATOR expression s ≠ .ret x s2) := by
  refine ⟨?_, ?_, ?_⟩
  · intro hr
    simp [try_bang, h, hr]
  · intro hr
    constructor
    · simp [try_bang, h, hr]
    · simp [try_bang, h, hr, CTRYCATCH_BANG_OPERATOR]
  · intro x s2
    by_cases hr : r._error = NULL
    · simp [try_bang, h, hr]
    · simp [try_bang, h, hr, CTRYCATCH_BANG_OPERATOR]

/-- The default hook on the Results `{5, NULL}` and `{0, 4096}`. -/
theorem C8_try_bang_witness :
    (try_bang CTRYCATCH_BANG_OPERATOR (pure (⟨5, NULL⟩ : Result Int)) : Stmt Unit Unit Int) ()
        = .next 5 ()
      ∧ (try_bang CTRYCATCH_BANG_OPERATOR (pure (⟨0, 4096⟩ : Result Int)) : Stmt Unit Unit Int) ()
        = .aborted () :=
  ⟨(C8_try_bang CTRYCATCH_BANG_OPERATOR (pure (⟨5, NULL⟩ : Result Int)) () () ⟨5, NULL⟩ rfl).1 rfl,
   ((C8_try_bang CTRYCATCH_BANG_OPERATOR (pure (⟨0, 4096⟩ : Result Int)) () () ⟨0, 4096⟩ rfl).2.1
      (by decide)).2⟩

/-- C9: in the default build, for every home type `U` and every non-null
payload `e`, a function that has declared its result context and returns via
`throw_error(e)`, via `return convert_error(e);`, via
`return convert_always_error(a);` with `a._error = e`, or via a `try(...)` on
a Result `r` with `r._error = e`, returns `_error = e` and the zero `_value`
of the home type, whatever `a._value` and `r._value` are and whatever
statements follow the `try(...)`; the zero is 0 for `int` and `double`,
`{0, 0}` for `Point`, `NULL` for a pointer, and a zeroed placeholder for
`void` and for the always-error Result. -/
theorem C9_failed_result_value_is_zero [CZero U] (e : Ptr) (he : e ≠ NULL) (s : σ)
    (r : Result T) (hr : r._error = e) (a : result_always_error) (ha : a._error = e)
    (rest : T → Stmt (Result U) (Result U) Unit) :
    ((call (throw_error e) (result_context : Result U) : Stmt σ ρ (Result U)) s
        = .next { _value := CZero.zero, _error := e } s)
      ∧ ((call (do let x ← try_ (pure r); rest x) (result_context : Result U) :
            Stmt σ ρ (Result U)) s
        = .next { _value := CZero.zero, _error := e } s)
      ∧ ((call (do let c ← convert_error e; Stmt.ret c) (result_context : Result U) :
            Stmt σ ρ (Result U)) s
        = .next { _value := CZero.zero, _error := e } s)
      ∧ ((call (do let c ← convert_always_error (pure a); Stmt.ret c)
            (result_context : Result U) : Stmt σ ρ (Result U)) s
        = .next { _value := CZero.zero, _error := e } s)
      ∧ (CZero.zero : Int) = 0 ∧ (CZero.zero : ℚ) = 0 ∧ (CZero.zero : Point) = ⟨0, 0⟩
      ∧ (CZero.zero : Ptr) = NULL ∧ (CZero.zero : void_result_value) = ⟨0⟩
      ∧ (result_context : result_always_error)._value = 0 := by
  refine ⟨?_, ?_, ?_, ?_, rfl, rfl, rfl, rfl, rfl, rfl⟩
  · simp [call, throw_error_apply, result_context]
  · simp [call, try_apply, hr, he, result_context]
  · simp [call, convert_error, result_context]
  · simp [call, convert_always_error, result_context, ha]

/-- The home type `Point`, the payload 4096, an inner Result with the value 7
and an always-error Result with the placeholder 3. -/
theorem C9_failed_result_value_is_zero_witness :
    (call (do let x ← try_ (pure (⟨7, 4096⟩ : Result Int)); Stmt.ret (new_result ⟨x, x⟩))
        (result_context : Result Point) : Stmt Unit Unit (Result Point)) ()
      = .next { _value := ⟨0, 0⟩, _error := 4096 } () :=
  (C9_failed_result_value_is_zero (U := Point) (σ := Unit) (ρ := Unit) 4096 (by decide) ()
    (⟨7, 4096⟩ : Result Int) rfl (⟨3, 4096⟩ : result_always_error) rfl
    (fun x => Stmt.ret (new_result ⟨x, x⟩))).2.1

end Value

end CTryCatch

namespace CTryCatch

namespace Value

variable {σ ρ : Type}

/-- C10 (as amended): in the default build, for every `v`, with `s = 0` the
statement
`try_catch(return_int_result(v, 0), { myVal = value * 2; }, { ...; myVal = -1; })`
leaves `myVal = 2 * v` when `2 * v` is within int range; `return_int(v, 0)`
returns `v`; and `return_int_catching_adding_7(v, 0)` returns `v + 7` when
`v + 7` is within int range.  Nothing is stated for a non-zero `s`. -/
theorem C10_catch_with_continuations (S : Statics) (v : Int) (myVal : Int) (st : σ) :
    (InIntRange (2 * v) → main_try_catch S v 0 myVal = .next () (2 * v))
      ∧ (return_int S v 0 : Stmt σ ρ Int) st = .next v st
      ∧ (InIntRange (v + 7) →
          (return_int_catching_adding_7 S v 0 : Stmt σ ρ Int) st = .next (v + 7) st) := by
  refine ⟨?_, ?_, ?_⟩
  · intro hr
    have hw : int_mul v 2 = 2 * v := by
      unfold int_mul
      rw [mul_comm, wrapInt_of_inRange hr]
    simp [main_try_catch, try_catch_apply, return_int_result_apply, NULL, hw]
  · exact return_int_apply S v st
  · intro hr
    have hw : int_add v 7 = v + 7 := wrapInt_of_inRange hr
    rw [return_int_catching_adding_7_apply, hw]

/-- The success cases `main` asserts: `v = 5` gives `myVal = 10`; `v = 10`
gives 10 from `return_int` and 17 from `return_int_catching_adding_7`. -/
theorem C10_catch_with_continuations_witness :
    main_try_catch Statics.example 5 0 0 = .next () 10
      ∧ (return_int Statics.example 10 0 : Stmt Unit Unit Int) () = .next 10 ()
      ∧ (return_int_catching_adding_7 Statics.example 10 0 : Stmt Unit Unit Int) ()
          = .next 17 () :=
  ⟨(C10_catch_with_continuations (σ := Unit) (ρ := Unit) Statics.example 5 0 ()).1 (by decide),
   (C10_catch_with_continuations (σ := Unit) (ρ := Unit) Statics.example 10 0 ()).2.1,
   (C10_catch_with_continuations (σ := Unit) (ρ := Unit) Statics.example 10 0 ()).2.2
      (by decide)⟩

/-- C10 as stated fails at `v = 2147483647`, `s = 0`: `value + 7` overflows
the int, and `return_int_catching_adding_7` returns `-2147483642`, not
`v + 7`. -/
theorem C10_int_overflow_counterexample :
    InIntRange 2147483647
      ∧ (return_int_catching_adding_7 Statics.example 2147483647 0 : Stmt Unit Unit Int) ()
          = .next (-2147483642) ()
      ∧ (return_int_catching_adding_7 Statics.example 2147483647 0 : Stmt Unit Unit Int) ()
          ≠ .next (2147483647 + 7) () := by
  have h : (return_int_catching_adding_7 Statics.example 2147483647 0 : Stmt Unit Unit Int) ()
      = .next (-2147483642) () := by
    rw [return_int_catching_adding_7_apply]
    simp [int_add, wrapInt]
  refine ⟨by decide, h, ?_⟩
  rw [h]
  simp

end Value

end CTryCatch

namespace CTryCatch

namespace Value

variable {σ ρ T U : Type}

/-- The call `return_int_plus_5_result(value, should_fail)` evaluated. -/
theorem return_int_plus_5_result_apply (S : Statics) (value should_fail : Int) (s : σ) :
    (return_int_plus_5_result S value should_fail : Stmt σ ρ (Result Int)) s
      = if should_fail ≠ 0 ∧ S.error_copy ≠ NULL then
          .next { _value := 0, _error := S.error_copy } s
        else if should_fail ≠ 0 then .next { _value := int_add 0 5, _error := NULL } s
        else .next { _value := int_add value 5, _error := NULL } s := by
  unfold return_int_plus_5_result call return_int_plus_5_result.body
  by_cases h : should_fail = 0
  · simp [h, try_apply, return_int_result_apply, new_result, NULL]
  · by_cases hl : S.error_copy = NULL
    · simp [h, hl, try_apply, return_int_result_apply, new_result]
    · simp [h, hl, try_apply, return_int_result_apply, result_context, CZero.zero]

/-- C11: in the default build, for every `v` with `v + 5` within int range,
`return_int_plus_5_result(v, 0)` returns the Result `{v + 5, NULL}`; for
`v = 10` the value is 15, and
`return_double_plus_int_plus_5_result(10.0, 10, 0)` returns `{25, NULL}`. -/
theorem C11_propagate_then_wrap (S : Statics) (v : Int) (hv : InIntRange (v + 5)) (s : σ) :
    (return_int_plus_5_result S v 0 : Stmt σ ρ (Result Int)) s
        = .next { _value := v + 5, _error := NULL } s
      ∧ (return_int_plus_5_result S 10 0 : Stmt σ ρ (Result Int)) s
        = .next { _value := 15, _error := NULL } s
      ∧ (return_double_plus_int_plus_5_result S 10 10 0 : Stmt σ ρ (Result ℚ)) s
        = .next { _value := 25, _error := NULL } s := by
  have h15 : int_add 10 5 = 15 := by decide
  refine ⟨?_, ?_, ?_⟩
  · have hw : int_add v 5 = v + 5 := wrapInt_of_inRange hv
    simp [return_int_plus_5_result_apply, hw]
  · simp [return_int_plus_5_result_apply, h15]
  · unfold return_double_plus_int_plus_5_result call return_double_plus_int_plus_5_result.body
    simp [try_apply, return_int_plus_5_result_apply, h15, new_result, NULL]
    norm_num

/-- The case `v = 10` on the layout with the literal at address 4096. -/
theorem C11_propagate_then_wrap_witness :
    InIntRange (10 + 5)
      ∧ (return_int_plus_5_result Statics.example 10 0 : Stmt Unit Unit (Result Int)) ()
          = .next { _value := 10 + 5, _error := NULL } () :=
  ⟨by decide, (C11_propagate_then_wrap (σ := Unit) (ρ := Unit) Statics.example 10 (by decide) ()).1⟩

/-- C12: in the default build, for every payload `e` and result context
`ctx`, `convert_error(e)` yields `ctx` with `_error = e`; for every
always-error Result `a`, `convert_always_error(a)` and
`always_error_to_result(a)` are the same statement and yield `ctx` with
`_error = a._error`; `_value` is the one `ctx` holds, which is the zero of the
home type in the context `result_context` declares. -/
theorem C12_error_conversion (e : Ptr) (a : result_always_error) (ctx : Result U) :
    (convert_error e : Stmt (Result U) ρ (Result U)) ctx
        = .next { _value := ctx._value, _error := e } { _value := ctx._value, _error := e }
      ∧ (convert_always_error (pure a) : Stmt (Result U) ρ (Result U)) ctx
        = .next { _value := ctx._value, _error := a._error }
            { _value := ctx._value, _error := a._error }
      ∧ (always_error_to_result (pure a) : Stmt (Result U) ρ (Result U)) ctx
        = .next { _value := ctx._value, _error := a._error }
            { _value := ctx._value, _error := a._error }
      ∧ (∀ expression : Stmt (Result U) ρ result_always_error,
          convert_always_error expression = always_error_to_result expression)
      ∧ (∀ [CZero U], (result_context : Result U)._value = CZero.zero) := by
  refine ⟨?_, ?_, ?_, ?_, ?_⟩
  · simp [convert_error]
  · simp [convert_always_error]
  · simp [always_error_to_result]
  · intro expression
    rfl
  · intro _
    rfl

end Value

end CTryCatch

namespace CTryCatch

namespace Value

variable {σ ρ T U : Type}

/-- The call `always_throw_error()` evaluated. -/
theorem always_throw_error_apply (S : Statics) (s : σ) :
    (always_throw_error S : Stmt σ ρ result_always_error) s
      = .next { _value := 0, _error := S.error_copy } s := by
  simp [always_throw_error, call, always_throw_error.body, throw_error_apply, result_context,
    CZero.zero]

/-- C13 fails on the code where a function throws: on the layout with the
literal at address 4096 and the array copy at address 8192,
`return_void_result(0)` returns `_error = NULL`, but `return_void_result(1)`
and `always_throw_error()` return `_error = 8192`, the address of the dead
copy and not the literal at 4096; a `strcmp` on that pointer reads a dead
object, which is undefined, so `catch_always_throw_error()`, whose failure
block is entered, has no defined outcome. -/
theorem C13_thrown_literal_is_dead_copy :
    (return_void_result Statics.example 0 : Stmt Unit Unit result_void) ()
        = .next { _value := ⟨0⟩, _error := NULL } ()
      ∧ (return_void_result Statics.example 1 : Stmt Unit Unit result_void) ()
        = .next { _value := ⟨0⟩, _error := 8192 } ()
      ∧ (always_throw_error Statics.example : Stmt Unit Unit result_always_error) ()
        = .next { _value := 0, _error := 8192 } ()
      ∧ Statics.example.strlit_Error = 4096
      ∧ (strcmp_eq_zero Statics.example 8192 "Error" : Stmt Unit Unit Bool) () = .undefined
      ∧ (try_catch (always_throw_error Statics.example) Event.success Event.failure :
          Stmt (List (Event Int)) Unit Unit) []
        = .next () [Event.failure_block 8192]
      ∧ (catch_always_throw_error Statics.example : Stmt Unit Unit Unit) () = .undefined := by
  refine ⟨?_, ?_, ?_, rfl, ?_, ?_, ?_⟩
  · simp [return_void_result, call, return_void_result.body, new_result_void]
  · simp [return_void_result, call, return_void_result.body, throw_error_apply,
      result_context, CZero.zero, Statics.example]
  · simp [always_throw_error_apply, Statics.example]
  · simp [strcmp_eq_zero, Statics.example]
  · simp [try_catch_apply, always_throw_error_apply, Statics.example, NULL, Event.failure]
  · simp [catch_always_throw_error, call_void, catch_always_throw_error.body, try_catch_apply,
      always_throw_error_apply, Statics.example, NULL, strcmp_eq_zero]

/-- C14: in the default build, a function with home type `int` that returns
via `throw_error(NULL)` returns the Result `new_result(0)`, that is
`{0, NULL}`; a `try` on that call does not return from the enclosing function
and yields 0, a `try_bang` on it yields 0 whatever the abort hook is, so the
hook is not invoked, and a `try_catch` on it is its success block run with
`value = 0`. -/
theorem C14_null_payload_is_no_error (ctx : Result U) (s : σ) (bang : Stmt σ ρ Unit)
    (success : Int → Stmt σ ρ Unit) (failure : Ptr → Stmt σ ρ Unit) :
    (call (throw_error NULL) (result_context : Result Int) : Stmt σ ρ (Result Int)) s
        = .next (new_result 0) s
      ∧ (new_result 0 : Result Int) = { _value := 0, _error := NULL }
      ∧ try_ (call (throw_error NULL) (result_context : Result Int)) ctx = .next 0 ctx
      ∧ try_bang bang (call (throw_error NULL) (result_context : Result Int)) s = .next 0 s
      ∧ try_catch (call (throw_error NULL) (result_context : Result Int)) success failure s
        = success 0 s := by
  have hc : ∀ (σ1 ρ1 : Type) (t : σ1),
      (call (throw_error NULL) (result_context : Result Int) : Stmt σ1 ρ1 (Result Int)) t
        = .next { _value := 0, _error := NULL } t := by
    intro σ1 ρ1 t
    simp [call, throw_error_apply, result_context, CZero.zero]
  refine ⟨?_, rfl, ?_, ?_, ?_⟩
  · rw [hc]; rfl
  · simp [try_apply, hc]
  · simp [try_bang, hc]
  · simp [try_catch_apply, hc]

end Value

end CTryCatch

namespace CTryCatch

namespace Jump

variable {L ρ T α : Type}

/-- C15: in the jump build the branch of `try_catch` is decided by how the
expression leaves, not by `error_value`.  `setjmp` leaves `error_value` as it
is; when the expression returns normally and the success block completes in
the state `s2`, the `try_catch` completes in `s2`, whatever `error_value`
held; when the expression leaves by a jump to the catch point this
`try_catch` set, the failure block runs with `error` the stored value,
whatever it is.  With blocks that record: from every thread, also one whose
`error_value` is not `NULL`, an expression that returns `v` runs only the
success block and leaves `error_value` unchanged, and an expression that
executes `throw_error(e)` runs only the failure block, for every `e`, also
`NULL`. -/
theorem C15_dispatch_independent_of_payload (expression : Stmt (Frame L) ρ T)
    (success : T → Stmt (Frame L) ρ Unit) (failure : Ptr → Stmt (Frame L) ρ Unit)
    (s s1 s2 : Frame L) (v : T) (e : Ptr) :
    (setjmp s).2.thread.error_value = s.thread.error_value
      ∧ (expression (setjmp s).2 = .next v s1 → success v s1 = .next () s2 →
          try_catch expression success failure s = .next () s2)
      ∧ (expression (setjmp s).2 = .jump (setjmp s).1 s1 →
          try_catch expression success failure s = failure s1.thread.error_value s1)
      ∧ (∀ (th : Thread) (log : List (Event T)),
          (try_catch (pure v) (fun value => record (Event.success_block value))
              (fun error => record (Event.failure_block error)) : Stmt _ ρ Unit)
              { thread := th, locals := log }
            = .next () { thread := { error_jmp_buf := some th.setjmp_calls,
                                     error_value := th.error_value,
                                     setjmp_calls := th.setjmp_calls + 1 },
                         locals := log ++ [Event.success_block v] })
      ∧ (∀ (th : Thread) (log : List (Event T)),
          (try_catch (throw_error e) (fun value => record (Event.success_block value))
              (fun error => record (Event.failure_block error)) : Stmt _ ρ Unit)
              { thread := th, locals := log }
            = .next () { thread := { error_jmp_buf := some th.setjmp_calls,
                                     error_value := e,
                                     setjmp_calls := th.setjmp_calls + 1 },
                         locals := log ++ [Event.failure_block e] }) := by
  refine ⟨rfl, ?_, ?_, ?_, ?_⟩
  · intro hx hs
    rw [try_catch_of_next _ _ _ _ _ _ hx, hs]
  · intro hx
    rw [try_catch_of_jump _ _ _ _ _ _ hx]
    simp
  · intro th log
    simp [try_catch, setjmp, record]
  · intro th log
    simp [try_catch, setjmp, record, jump_throw_error_apply]

/-- The second `try_catch` of `main` in the jump build, run after the first
one has failed: `error_value` still holds the address 4096 of the literal,
`return_int_result(5, 0)` returns normally, the success block runs and leaves
`myVal = 10`, and `error_value` is unchanged. -/
theorem C15_dispatch_independent_of_payload_witness :
    main_try_catch Statics.example 5 1
        { thread := { error_jmp_buf := none, error_value := NULL, setjmp_calls := 0 },
          locals := 0 }
        = .next () { thread := { error_jmp_buf := some 0, error_value := 4096,
                                 setjmp_calls := 1 }, locals := -1 }
      ∧ main_try_catch Statics.example 5 0
        { thread := { error_jmp_buf := some 0, error_value := 4096, setjmp_calls := 1 },
          locals := 0 }
        = .next () { thread := { error_jmp_buf := some 1, error_value := 4096,
                                 setjmp_calls := 2 }, locals := 10 } := by
  constructor
  · simp [main_try_catch, try_catch, jump_return_int_result_apply, setjmp, strcmp_eq_zero,
      Statics.example]
  · exact (C15_dispatch_independent_of_payload (return_int_result Statics.example 5 0)
      (fun value => do
        let f ← Stmt.get
        Stmt.set { f with locals := int_mul value 2 })
      (fun error => do
        let c ← strcmp_eq_zero Statics.example error "Error"
        Stmt.assert c
        let f ← Stmt.get
        Stmt.set { f with locals := -1 })
      { thread := { error_jmp_buf := some 0, error_value := 4096, setjmp_calls := 1 },
        locals := 0 }
      { thread := { error_jmp_buf := some 1, error_value := 4096, setjmp_calls := 2 },
        locals := 0 }
      { thread := { error_jmp_buf := some 1, error_value := 4096, setjmp_calls := 2 },
        locals := 10 }
      5 NULL).2.1 (by simp [jump_return_int_result_apply, setjmp])
        rfl

/-- The call `return_int_plus_5_result(value, should_fail)` of the jump build,
when `should_fail` is zero. -/
theorem jump_return_int_plus_5_result_apply (S : Statics) (value : Int) (s : Frame L) :
    (return_int_plus_5_result S value 0 : Stmt (Frame L) ρ Int) s
      = .next (int_add value 5) s := by
  simp [return_int_plus_5_result, call, return_int_plus_5_result.body, try_,
    jump_return_int_result_apply, new_result]

/-- C16: in the jump build `try`, `try_bang`, `new_result`, `convert_error`
and `convert_always_error` are the identity on every `x`; on a statement `y`
they are `y` itself, so they add no read or write of `error_value` or
`error_jmp_buf`; and for every `v` with `v + 5` within int range
`return_int_plus_5_result(v, 0)` returns the int `v + 5` and leaves the
thread as it was. -/
theorem C16_jump_operators_identity (x : α) (y : Stmt (Frame L) ρ T) (t : Frame L)
    (S : Statics) (v : Int) (hv : InIntRange (v + 5)) :
    try_ x = x ∧ try_bang x = x ∧ new_result x = x ∧ convert_error x = x
      ∧ convert_always_error x = x
      ∧ (try_ y t = y t ∧ try_bang y t = y t ∧ new_result y t = y t ∧ convert_error y t = y t
          ∧ convert_always_error y t = y t)
      ∧ (return_int_plus_5_result S v 0 : Stmt (Frame L) ρ Int) t = .next (v + 5) t := by
  refine ⟨rfl, rfl, rfl, rfl, rfl, ⟨rfl, rfl, rfl, rfl, rfl⟩, ?_⟩
  rw [jump_return_int_plus_5_result_apply]
  have hw : int_add v 5 = v + 5 := wrapInt_of_inRange hv
  rw [hw]

/-- The success cases `main` asserts in the jump build, on the layout with
the literal at address 4096: `return_int_plus_5_result(10, 0)` is 15. -/
theorem C16_jump_operators_identity_witness :
    InIntRange (10 + 5)
      ∧ (return_int_plus_5_result Statics.example 10 0 : Stmt (Frame Unit) Unit Int)
          { thread := { error_jmp_buf := none, error_value := NULL, setjmp_calls := 0 },
            locals := () }
        = .next (10 + 5)
            { thread := { error_jmp_buf := none, error_value := NULL, setjmp_calls := 0 },
              locals := () } :=
  ⟨by decide,
   (C16_jump_operators_identity (α := Int) (T := Int) (ρ := Unit) 0 (pure 0)
      { thread := { error_jmp_buf := none, error_value := NULL, setjmp_calls := 0 },
        locals := () }
      Statics.example 10 (by decide)).2.2.2.2.2.2⟩

end Jump

end CTryCatch
